import Mathlib

/-!
Shallow embedding of the fareway-database-mcp tool-execution gateway.

Sources embedded:
 - src/server.ts                 (transport adapters, auth middleware)
 - src/utils/database.ts         (in the packed file: cache utility, tool
                                  registry, course/accommodation handlers)
 - src/tools/rates.ts            (supplier-rate handlers)
 - src/types/tools.ts            (ToolResult shape, zod parameter schemas)

JavaScript values are modelled by a small JSON datatype; machine numbers that
the claims exercise are integers, modelled as Int.  Fallible operations are
modelled with Except.  Wall-clock durations are passed in explicitly as an
integer parameter, standing for the Date.now() difference computed by the code.
-/

/-- JSON values, the payload currency of every handler and transport. -/
inductive Json where
  | null : Json
  | bool (b : Bool) : Json
  | num (n : Int) : Json
  | str (s : String) : Json
  | arr (xs : List Json) : Json
  | obj (fs : List (String × Json)) : Json

/--
ToolResult from src/types/tools.ts: `{ success, data?, error?, metadata? }`.
Optional fields are Option; JSON serialization drops absent fields.
-/
structure ToolResult where
  success : Bool
  data : Option Json
  error : Option String
  metadata : Option (List (String × Json))

/-- Serialize a ToolResult the way JSON.stringify renders it (absent fields dropped). -/
def toolResultToJson (r : ToolResult) : Json :=
  Json.obj
    ([("success", Json.bool r.success)]
      ++ (match r.data with | some d => [("data", d)] | none => [])
      ++ (match r.error with | some e => [("error", Json.str e)] | none => [])
      ++ (match r.metadata with | some m => [("metadata", Json.obj m)] | none => []))

/-- Look a key up in the metadata mapping of a ToolResult. -/
def metaLookup (r : ToolResult) (k : String) : Option Json :=
  match r.metadata with
  | none => none
  | some m => (m.find? (fun e => e.1 == k)).map (fun e => e.2)

/-- Character-list helper: does the pattern begin the haystack? -/
def leadMatch : List Char → List Char → Bool
  | [], _ => true
  | _ :: _, [] => false
  | a :: as, b :: bs => a == b && leadMatch as bs

/-- Character-list helper: does the pattern occur anywhere in the haystack? -/
def hasSub (pat : List Char) : List Char → Bool
  | [] => pat.isEmpty
  | b :: t => leadMatch pat (b :: t) || hasSub pat t

/-- Substring test on strings (JS String.prototype.includes). -/
def strContains (hay pat : String) : Bool :=
  hasSub pat.toList hay.toList

/-- Case-insensitive substring match: the semantics of the record-store filter
`ilike(col, pattern surrounded by percent wildcards)` as every handler uses it. -/
def ilikeContains (hay pat : String) : Bool :=
  hasSub pat.toLower.toList hay.toLower.toList

/-- A golf-course row, carrying the columns the embedded queries select and filter on. -/
structure Course where
  id : String
  name : String
  region : String
  course_type : String
  rating : Int
  green_fee_standard_cents : Int

/-- Insert a course into a list sorted by descending rating. -/
def insertRatingDesc (c : Course) : List Course → List Course
  | [] => [c]
  | d :: ds => if d.rating < c.rating then c :: d :: ds else d :: insertRatingDesc c ds

/-- Sort by descending rating: the semantics of the record-store
`order(rating, ascending false)` step shared by the course queries. -/
def sortRatingDesc : List Course → List Course
  | [] => []
  | c :: cs => insertRatingDesc c (sortRatingDesc cs)

/-- JavaScript truthiness of an optional string argument (absent and empty are falsy). -/
def truthyS : Option String → Bool
  | none => false
  | some s => !(s == "")

/-- JavaScript truthiness of an optional numeric argument (absent and zero are falsy). -/
def truthyN : Option Int → Bool
  | none => false
  | some n => !(n == 0)

/-- Parameters of search_courses (src/types/tools.ts SearchCoursesSchema),
each optional so that the JS truthiness tests in the handler can be embedded. -/
structure SearchCoursesParams where
  region : Option String
  course_type : Option String
  min_price_cents : Option Int
  max_price_cents : Option Int
  limit : Option Int

/-- The conjunction of filters searchCourses pushes into its store query,
guarded exactly by the truthiness tests in the handler. -/
def searchFilterPred (p : SearchCoursesParams) (c : Course) : Bool :=
  (if truthyS p.region then ilikeContains c.region (p.region.getD "") else true)
    && (if truthyS p.course_type then c.course_type == p.course_type.getD "" else true)
    && (if truthyN p.min_price_cents then decide (p.min_price_cents.getD 0 ≤ c.green_fee_standard_cents) else true)
    && (if truthyN p.max_price_cents then decide (c.green_fee_standard_cents ≤ p.max_price_cents.getD 0) else true)

/-- Effective row limit of searchCourses: the JS expression `limit or-else 20`
(zero and absent both fall back to the default 20). -/
def effLimit20 : Option Int → Nat
  | none => 20
  | some n => if n == 0 then 20 else n.toNat

/-- Rows produced by the searchCourses store query: filters, then the
descending-rating order, then the limit (the record store applies order before
limit regardless of builder call order). -/
def searchCoursesRows (store : List Course) (p : SearchCoursesParams) : List Course :=
  (sortRatingDesc (store.filter (searchFilterPred p))).take (effLimit20 p.limit)

/-- Budget tiers of get_recommended_courses (zod enum budget, standard, luxury). -/
inductive BudgetTier where
  | budget : BudgetTier
  | standard : BudgetTier
  | luxury : BudgetTier

/-- A price bracket with optional bounds, as the handler builds it. -/
structure PriceRange where
  lo : Option Int
  hi : Option Int

/-- The priceRanges table of getRecommendedCourses (values in cents). -/
def priceRanges : BudgetTier → PriceRange
  | BudgetTier.budget => { lo := none, hi := some 15000 }
  | BudgetTier.standard => { lo := some 15000, hi := some 35000 }
  | BudgetTier.luxury => { lo := some 35000, hi := none }

/-- Effective row limit of getRecommendedCourses: the JS expression
`limit or-else 10`. -/
def effLimit10 : Option Int → Nat
  | none => 10
  | some n => if n == 0 then 10 else n.toNat

/-- Rows produced by the getRecommendedCourses store query, embedded from the
handler: region ilike filter, conditional gte and lte price filters from the
tier bracket, descending-rating order, limit. -/
def getRecommendedCoursesRows (store : List Course) (region : String)
    (tier : BudgetTier) (lim : Option Int) : List Course :=
  let range := priceRanges tier
  let q1 := store.filter (fun c => ilikeContains c.region region)
  let q2 := match range.lo with
    | some m => q1.filter (fun c => decide (m ≤ c.green_fee_standard_cents))
    | none => q1
  let q3 := match range.hi with
    | some m => q2.filter (fun c => decide (c.green_fee_standard_cents ≤ m))
    | none => q2
  (sortRatingDesc q3).take (effLimit10 lim)

/-- The price-bracket policy exactly as the specification words it: budget is
price at most 15000, standard is 15000 to 35000 inclusive on both ends, luxury
is at least 35000. -/
def tierIncludes : BudgetTier → Int → Bool
  | BudgetTier.budget, p => decide (p ≤ 15000)
  | BudgetTier.standard, p => decide (15000 ≤ p) && decide (p ≤ 35000)
  | BudgetTier.luxury, p => decide (35000 ≤ p)

/-- The limit as the specification words it: the requested limit, or 10 when
no limit is given. -/
def specLimit : Option Int → Nat
  | none => 10
  | some n => n.toNat

/-- Recommended-courses result as the specification describes it: one combined
filter of region match and tier bracket, descending-rating order, truncation to
the requested limit with 10 as the default. -/
def specRecommendedRows (store : List Course) (region : String)
    (tier : BudgetTier) (lim : Option Int) : List Course :=
  (sortRatingDesc (store.filter
      (fun c => ilikeContains c.region region && tierIncludes tier c.green_fee_standard_cents))).take
    (specLimit lim)

/-!
Cache layer (src/utils/cache.ts).  Three backend conditions: absent (cache
disabled or no backend URL, getRedisClient returns null), unreachable (a client
object exists but every operation raises, the catch blocks swallow the error),
and live with a key-value table.
-/

/-- State of the optional cache backend. -/
inductive CacheState where
  | absent : CacheState
  | unreachable : CacheState
  | live (entries : List (String × Json)) : CacheState

/-- Key lookup in a live cache table. -/
def cacheLookup (es : List (String × Json)) (k : String) : Option Json :=
  (es.find? (fun e => e.1 == k)).map (fun e => e.2)

/-- getCached: null client gives a miss; a raising client is caught and gives a
miss; a live client looks the key up. -/
def getCached : CacheState → String → Option Json
  | CacheState.absent, _ => none
  | CacheState.unreachable, _ => none
  | CacheState.live es, k => cacheLookup es k

/-- setCached: null client is a no-op; a raising client is caught and is a
no-op; a live client stores the value under the key. -/
def setCached : CacheState → String → Json → CacheState
  | CacheState.absent, _, _ => CacheState.absent
  | CacheState.unreachable, _, _ => CacheState.unreachable
  | CacheState.live es, k, v => CacheState.live ((k, v) :: es.filter (fun e => !(e.1 == k)))

/-- Deterministic encoding of search parameters, standing for
JSON.stringify(params) in the cache key of searchCourses. -/
def encodeSearchParams (p : SearchCoursesParams) : String :=
  (match p.region with | none => "_" | some s => "r:" ++ s)
    ++ ";" ++ (match p.course_type with | none => "_" | some s => "t:" ++ s)
    ++ ";" ++ (match p.min_price_cents with | none => "_" | some n => toString n)
    ++ ";" ++ (match p.max_price_cents with | none => "_" | some n => toString n)
    ++ ";" ++ (match p.limit with | none => "_" | some n => toString n)

/-- Cache key of searchCourses. -/
def searchCacheKey (p : SearchCoursesParams) : String :=
  "courses:search:" ++ encodeSearchParams p

/-- Serialize a course row as the store returns it. -/
def courseToJson (c : Course) : Json :=
  Json.obj
    [("id", Json.str c.id), ("name", Json.str c.name), ("region", Json.str c.region),
     ("course_type", Json.str c.course_type), ("rating", Json.num c.rating),
     ("green_fee_standard_cents", Json.num c.green_fee_standard_cents)]

/--
The searchCourses handler (course tools in src/utils/database.ts packed file):
read-through cache, store query, cache write, envelope.  The store argument is
the backing table on success or the store error message; d is the wall-clock
duration the handler computes.  Returns the envelope and the cache state after
the call.
-/
def searchCoursesHandler (cache : CacheState) (store : Except String (List Course))
    (p : SearchCoursesParams) (d : Int) : ToolResult × CacheState :=
  let key := searchCacheKey p
  match getCached cache key with
  | some v =>
      ({ success := true, data := some v, error := none,
         metadata := some [("cached", Json.bool true)] }, cache)
  | none =>
      match store with
      | Except.error m =>
          ({ success := false, data := none,
             error := some ("Database error: " ++ m), metadata := none }, cache)
      | Except.ok table =>
          let rows := searchCoursesRows table p
          let dataJ := Json.arr (rows.map courseToJson)
          ({ success := true, data := some dataJ, error := none,
             metadata := some [("count", Json.num rows.length), ("duration_ms", Json.num d)] },
           setCached cache key dataJ)

/-- A negotiated-rate row (operator_supplier_rates columns the handler selects). -/
structure RateRow where
  id : String
  rate_cents : Int
  discount_percentage : Int

/--
The hasNegotiatedRate handler (src/tools/rates.ts).  The single-row store query
either yields a row or reports an error; the handler maps any query error —
no-row as well as a store failure — to a successful result with has_rate false.
-/
def hasNegotiatedRateHandler (store : Except String RateRow) : ToolResult :=
  match store with
  | Except.error _ =>
      { success := true,
        data := some (Json.obj [("has_rate", Json.bool false)]),
        error := none, metadata := none }
  | Except.ok row =>
      { success := true,
        data := some (Json.obj
          [("has_rate", Json.bool true), ("rate_cents", Json.num row.rate_cents),
           ("discount_percentage", Json.num row.discount_percentage)]),
        error := none, metadata := none }

/-!
Tool registry (src/utils/database.ts packed file, tool-registry section).
Each entry records its name, description, and whether the inputSchema field is
a zod schema object (which has a parse method) or a plain object literal
(which does not).
-/

/-- The shape of a registered inputSchema: a zod schema value or a plain object. -/
inductive InputSchema where
  | zodSchema (schemaName : String) : InputSchema
  | plainObject : InputSchema
  deriving DecidableEq

/-- A registry entry: the statically registered fields of a ToolDefinition. -/
structure RegEntry where
  name : String
  description : String
  inputSchema : InputSchema
  deriving DecidableEq

/-- The static tools array, in source order. -/
def tools : List RegEntry :=
  [ { name := "search_courses",
      description := "Search for golf courses by region, type, and price range. Returns a list of courses with basic information.",
      inputSchema := InputSchema.zodSchema "SearchCoursesSchema" },
    { name := "get_course_details",
      description := "Get comprehensive details about a specific golf course including pricing, features, and contact information.",
      inputSchema := InputSchema.zodSchema "GetCourseDetailsSchema" },
    { name := "get_recommended_courses",
      description := "Get AI-recommended courses for a region based on budget tier (budget/standard/luxury). Returns top-rated courses in price range.",
      inputSchema := InputSchema.zodSchema "GetRecommendedCoursesSchema" },
    { name := "find_course_by_name",
      description := "Find courses by name using fuzzy search. Useful when user mentions specific course names.",
      inputSchema := InputSchema.plainObject },
    { name := "search_accommodations",
      description := "Search for hotels and accommodations by region, amenities, and price range.",
      inputSchema := InputSchema.zodSchema "SearchAccommodationsSchema" },
    { name := "get_accommodation_details",
      description := "Get detailed information about a specific accommodation including rooms, amenities, and rates.",
      inputSchema := InputSchema.zodSchema "GetAccommodationDetailsSchema" },
    { name := "get_golf_resorts",
      description := "Find golf resorts (accommodations with on-site golf courses) perfect for stay-and-play packages.",
      inputSchema := InputSchema.plainObject },
    { name := "get_supplier_rates",
      description := "Get tour operator\x27s negotiated rates with suppliers (courses, hotels, etc). Always check this for cost savings!",
      inputSchema := InputSchema.zodSchema "GetSupplierRatesSchema" },
    { name := "has_negotiated_rate",
      description := "Quick check if operator has a special negotiated rate with a specific supplier.",
      inputSchema := InputSchema.zodSchema "HasNegotiatedRateSchema" },
    { name := "get_operator_suppliers",
      description := "List all of an operator\x27s supplier relationships and negotiated rates.",
      inputSchema := InputSchema.plainObject } ]

/-- getTool: first registry entry whose name matches. -/
def getTool (name : String) : Option RegEntry :=
  tools.find? (fun t => t.name == name)

/-- listTools: the catalogue projection of every entry, in array order. -/
def listTools : List RegEntry :=
  tools.map (fun t =>
    { name := t.name, description := t.description, inputSchema := t.inputSchema })

/-!
Transport adapters (src/server.ts).  Both adapters run
`tool.inputSchema.parse(args)` and then `tool.execute(validatedArgs)` inside a
try block.  The zod validation outcome and the handler outcome are inputs of
the route model, since they depend on the argument body and the backend.
-/

/-- Outcome of evaluating `tool.inputSchema.parse(args)`: a validated value, a
raised TypeError because the plain objects have no parse method, or a raised
zod validation error. -/
inductive ParseOutcome where
  | ok (v : Json) : ParseOutcome
  | throwNotFunction : ParseOutcome
  | throwZod (msg : String) : ParseOutcome

/-- Outcome of `tool.execute(validatedArgs)`: a returned ToolResult or a raised
exception. -/
inductive ExecOutcome where
  | ret (r : ToolResult) : ExecOutcome
  | thrown (msg : String) : ExecOutcome

/-- What `inputSchema.parse` does, by schema shape: a plain object raises a
TypeError whatever the argument body; a zod schema yields the zod outcome. -/
def parseBehavior (s : InputSchema) (zr : Except String Json) : ParseOutcome :=
  match s with
  | InputSchema.plainObject => ParseOutcome.throwNotFunction
  | InputSchema.zodSchema _ =>
      match zr with
      | Except.ok v => ParseOutcome.ok v
      | Except.error m => ParseOutcome.throwZod m

/-- An HTTP response: status code and JSON body. -/
structure HttpResponse where
  status : Nat
  body : Json

/-- The JavaScript TypeError message raised when parse is missing. -/
def tnfMsg : String := "tool.inputSchema.parse is not a function"

/-- The `success:false` error body the catch blocks serialize. -/
def jsErrorBody (m : String) : Json :=
  Json.obj [("success", Json.bool false), ("error", Json.str m)]

/-- The 404 body of the REST route for an unregistered tool name. -/
def notFoundBody (name : String) : Json :=
  Json.obj [("success", Json.bool false),
            ("error", Json.str ("Tool \x27" ++ name ++ "\x27 not found"))]

/--
The REST route `POST /api/tools/:toolName` (src/server.ts lines 172 to 203):
404 for an unregistered name; otherwise parse then execute inside the try, any
raise caught as HTTP 500 with the error message; a returned ToolResult sent
verbatim with HTTP 200.  The Bool reports whether tool.execute was invoked.
-/
def restCallToolByName (name : String) (zr : Except String Json)
    (ex : ExecOutcome) : HttpResponse × Bool :=
  match getTool name with
  | none => ({ status := 404, body := notFoundBody name }, false)
  | some t =>
      match parseBehavior t.inputSchema zr with
      | ParseOutcome.throwNotFunction => ({ status := 500, body := jsErrorBody tnfMsg }, false)
      | ParseOutcome.throwZod m => ({ status := 500, body := jsErrorBody m }, false)
      | ParseOutcome.ok _ =>
          match ex with
          | ExecOutcome.thrown m => ({ status := 500, body := jsErrorBody m }, true)
          | ExecOutcome.ret r => ({ status := 200, body := toolResultToJson r }, true)

/-- The session-protocol reply: the serialized body of the single text content
item, and the isError flag of the reply envelope. -/
structure McpReply where
  body : Json
  isError : Bool

/--
The session-protocol call-tool handler (src/server.ts lines 103 to 148): an
unknown name raises, and every raise — unknown tool, parse failure, handler
raise — is caught and answered with a serialized `success:false` object and
the isError flag; a returned ToolResult is serialized verbatim without the
flag.  The Bool reports whether tool.execute was invoked.
-/
def mcpCallTool (name : String) (zr : Except String Json)
    (ex : ExecOutcome) : McpReply × Bool :=
  match getTool name with
  | none => ({ body := jsErrorBody ("Unknown tool: " ++ name), isError := true }, false)
  | some t =>
      match parseBehavior t.inputSchema zr with
      | ParseOutcome.throwNotFunction => ({ body := jsErrorBody tnfMsg, isError := true }, false)
      | ParseOutcome.throwZod m => ({ body := jsErrorBody m, isError := true }, false)
      | ParseOutcome.ok _ =>
          match ex with
          | ExecOutcome.thrown m => ({ body := jsErrorBody m, isError := true }, true)
          | ExecOutcome.ret r => ({ body := toolResultToJson r, isError := false }, true)

/-!
Auth middleware (src/server.ts lines 57 to 73).
-/

/-- Result of the middleware: pass the request on, or deny with a status code. -/
inductive AuthOutcome where
  | proceed : AuthOutcome
  | deny (status : Nat) : AuthOutcome
  deriving DecidableEq

/-- Does the header value start with the seven characters of the bearer tag? -/
def startsWithBearer (h : String) : Bool :=
  decide (h.toList.take 7 = "Bearer ".toList)

/-- The token after the tag: `authHeader.substring(7)`. -/
def bearerToken (h : String) : String :=
  String.mk (h.toList.drop 7)

/-- authMiddleware: no configured key admits everything; otherwise a missing or
non-bearer header is 401, a wrong token is 403, the exact key proceeds. -/
def authMiddleware (apiKey : Option String) (hdr : Option String) : AuthOutcome :=
  match apiKey with
  | none => AuthOutcome.proceed
  | some key =>
      match hdr with
      | none => AuthOutcome.deny 401
      | some h =>
          if !(startsWithBearer h) then AuthOutcome.deny 401
          else if !(bearerToken h == key) then AuthOutcome.deny 403
          else AuthOutcome.proceed

/-!
Helper lemmas shared by the claim theorems.
-/

/-- Fusing two successive filters into one conjunctive filter. -/
theorem filterFilterEq {α : Type} (p q : α → Bool) (l : List α) :
    (l.filter p).filter q = l.filter (fun a => p a && q a) := by
  induction l with
  | nil => rfl
  | cons a t ih => cases hp : p a <;> cases hq : q a <;> simp [List.filter_cons, hp, hq, ih]

/-- Filtering with pointwise-equal predicates gives equal results. -/
theorem filterExt {α : Type} (p q : α → Bool) (h : ∀ a, p a = q a) (l : List α) :
    l.filter p = l.filter q := by
  induction l with
  | nil => rfl
  | cons a t ih => simp [List.filter_cons, h a, ih]

/-- A pattern is a lead of any extension of itself. -/
theorem leadMatchAppend (as bs : List Char) : leadMatch as (as ++ bs) = true := by
  induction as with
  | nil => rfl
  | cons a t ih => simp [leadMatch, ih]

/-- leadMatch is reflexive. -/
theorem leadMatchRefl (n : List Char) : leadMatch n n = true := by
  have h := leadMatchAppend n []
  simpa using h

/-- A suffix occurs as a substring. -/
theorem hasSubAppend (pre n : List Char) : hasSub n (pre ++ n) = true := by
  induction pre with
  | nil =>
      cases n with
      | nil => rfl
      | cons a t => simp [hasSub, leadMatchRefl]
  | cons x t ih => simp [hasSub, ih]

/-!
Claim theorems.
-/

/-- Claim C9: for every registered tool name, looking the name up in the
registry returns exactly the definition registered under that name, and the
catalogue enumeration returns the entries (name, description, inputSchema) in
registration order. -/
theorem c9_registry_lookup_and_order :
    (∀ e, e ∈ tools → getTool e.name = some e) ∧
    listTools = tools ∧
    tools.map (fun t => t.name) =
      ["search_courses", "get_course_details", "get_recommended_courses",
       "find_course_by_name", "search_accommodations", "get_accommodation_details",
       "get_golf_resorts", "get_supplier_rates", "has_negotiated_rate",
       "get_operator_suppliers"] := by
  refine ⟨by decide, by decide, by decide⟩

/-- Witness for C9: the lookup of a concretely registered entry returns that
entry. -/
theorem c9_registry_witness :
    getTool "find_course_by_name" =
      some { name := "find_course_by_name",
             description := "Find courses by name using fuzzy search. Useful when user mentions specific course names.",
             inputSchema := InputSchema.plainObject } :=
  c9_registry_lookup_and_order.1
    { name := "find_course_by_name",
      description := "Find courses by name using fuzzy search. Useful when user mentions specific course names.",
      inputSchema := InputSchema.plainObject }
    (by decide)

/-- Claim C6: invoking an unregistered tool name is reported to the caller and
is not fatal: the REST path answers 404 with its not-found body, and the
session-protocol path answers a non-raising reply whose serialized body is the
success-false error object whose message contains the requested name. -/
theorem c6_unknown_tool_reported (name : String) (zr : Except String Json)
    (ex : ExecOutcome) (h : getTool name = none) :
    (restCallToolByName name zr ex).1.status = 404 ∧
    (restCallToolByName name zr ex).1.body = notFoundBody name ∧
    mcpCallTool name zr ex =
      ({ body := jsErrorBody ("Unknown tool: " ++ name), isError := true }, false) ∧
    strContains ("Unknown tool: " ++ name) name = true := by
  refine ⟨?_, ?_, ?_, ?_⟩
  · simp [restCallToolByName, h]
  · simp [restCallToolByName, h]
  · simp [mcpCallTool, h]
  · show hasSub name.toList ("Unknown tool: " ++ name).toList = true
    have hd : ("Unknown tool: " ++ name).data = "Unknown tool: ".data ++ name.data :=
      String.data_append _ _
    show hasSub name.data ("Unknown tool: " ++ name).data = true
    rw [hd]
    exact hasSubAppend _ _

/-- Witness for C6 at the spec scenario name does_not_exist. -/
theorem c6_unknown_tool_witness :
    (restCallToolByName "does_not_exist" (Except.ok Json.null)
        (ExecOutcome.ret { success := true, data := none, error := none, metadata := none })).1.status = 404 ∧
    (restCallToolByName "does_not_exist" (Except.ok Json.null)
        (ExecOutcome.ret { success := true, data := none, error := none, metadata := none })).1.body = notFoundBody "does_not_exist" ∧
    mcpCallTool "does_not_exist" (Except.ok Json.null)
        (ExecOutcome.ret { success := true, data := none, error := none, metadata := none }) =
      ({ body := jsErrorBody ("Unknown tool: " ++ "does_not_exist"), isError := true }, false) ∧
    strContains ("Unknown tool: " ++ "does_not_exist") "does_not_exist" = true :=
  c6_unknown_tool_reported "does_not_exist" (Except.ok Json.null)
    (ExecOutcome.ret { success := true, data := none, error := none, metadata := none })
    (by decide)

/-- Claim C7: with no configured secret every request is admitted; with a
secret, a request without a bearer authorization header is denied 401, a
request whose bearer token differs from the secret is denied 403, and a
request bearing the exact secret proceeds. -/
theorem c7_auth_middleware_policy (key : String) (hdr : Option String) :
    authMiddleware none hdr = AuthOutcome.proceed ∧
    authMiddleware (some key) none = AuthOutcome.deny 401 ∧
    (∀ h, startsWithBearer h = false →
      authMiddleware (some key) (some h) = AuthOutcome.deny 401) ∧
    (∀ h, startsWithBearer h = true → bearerToken h ≠ key →
      authMiddleware (some key) (some h) = AuthOutcome.deny 403) ∧
    authMiddleware (some key) (some ("Bearer " ++ key)) = AuthOutcome.proceed := by
  refine ⟨rfl, rfl, ?_, ?_, ?_⟩
  · intro h hh
    simp [authMiddleware, hh]
  · intro h hh hne
    have hb : (bearerToken h == key) = false := by
      simpa using hne
    simp [authMiddleware, hh, hb]
  · have hd : ("Bearer " ++ key).data = "Bearer ".data ++ key.data :=
      String.data_append _ _
    have h7 : ("Bearer ".data).length = 7 := by decide
    have hsw : startsWithBearer ("Bearer " ++ key) = true := by
      simp only [startsWithBearer, decide_eq_true_eq]
      show (("Bearer " ++ key).data).take 7 = "Bearer ".data
      rw [hd, ← h7, List.take_left]
    have hbt : bearerToken ("Bearer " ++ key) = key := by
      show String.mk ((("Bearer " ++ key).data).drop 7) = key
      rw [hd, ← h7, List.drop_left]
    simp [authMiddleware, hsw, hbt]

/-- Witness for C7 at the spec scenario secret123: missing header 401, wrong
token 403, exact secret proceeds. -/
theorem c7_auth_middleware_witness :
    authMiddleware (some "secret123") none = AuthOutcome.deny 401 ∧
    authMiddleware (some "secret123") (some "Bearer wrong") = AuthOutcome.deny 403 ∧
    authMiddleware (some "secret123") (some ("Bearer " ++ "secret123")) = AuthOutcome.proceed :=
  ⟨(c7_auth_middleware_policy "secret123" none).2.1,
   (c7_auth_middleware_policy "secret123" none).2.2.2.1 "Bearer wrong" (by decide) (by decide),
   (c7_auth_middleware_policy "secret123" none).2.2.2.2⟩

/-- Counterexample for C1: a schema-validation failure on the REST path is
raised by parse, caught by the adapter catch block, and answered with HTTP 500,
not with HTTP 200 carrying a success-false envelope as the claim states. -/
theorem c1_validation_failure_counterexample :
    (restCallToolByName "search_courses" (Except.error "Required")
        (ExecOutcome.ret { success := true, data := none, error := none, metadata := none })).1.status = 500 ∧
    ¬ (restCallToolByName "search_courses" (Except.error "Required")
        (ExecOutcome.ret { success := true, data := none, error := none, metadata := none })).1.status = 200 := by
  refine ⟨by decide, by decide⟩

/-- Claim C1 as amended: the REST tool route answers 404 exactly for
unregistered names; 200 with the verbatim envelope exactly when the registered
schema has a parse method, validation succeeds, and the handler returns — the
returned envelope may itself carry success false; and 500 whenever anything is
raised inside the try block, which includes schema-validation failures, the
missing-parse TypeError of plain-object schemas, and handler raises. -/
theorem c1_rest_route_amended (name : String) (zr : Except String Json) (ex : ExecOutcome) :
    (getTool name = none →
      (restCallToolByName name zr ex).1 = { status := 404, body := notFoundBody name }) ∧
    (∀ t s v r, getTool name = some t → t.inputSchema = InputSchema.zodSchema s →
      zr = Except.ok v → ex = ExecOutcome.ret r →
      (restCallToolByName name zr ex).1 = { status := 200, body := toolResultToJson r }) ∧
    (∀ t s m, getTool name = some t → t.inputSchema = InputSchema.zodSchema s →
      zr = Except.error m →
      (restCallToolByName name zr ex).1 = { status := 500, body := jsErrorBody m }) ∧
    (∀ t, getTool name = some t → t.inputSchema = InputSchema.plainObject →
      (restCallToolByName name zr ex).1 = { status := 500, body := jsErrorBody tnfMsg }) ∧
    (∀ t s v m, getTool name = some t → t.inputSchema = InputSchema.zodSchema s →
      zr = Except.ok v → ex = ExecOutcome.thrown m →
      (restCallToolByName name zr ex).1 = { status := 500, body := jsErrorBody m }) := by
  refine ⟨?_, ?_, ?_, ?_, ?_⟩
  · intro h
    simp [restCallToolByName, h]
  · intro t s v r ht hs hz hx
    subst hz hx
    simp [restCallToolByName, ht, hs, parseBehavior]
  · intro t s m ht hs hz
    subst hz
    simp [restCallToolByName, ht, hs, parseBehavior]
  · intro t ht hs
    simp [restCallToolByName, ht, hs, parseBehavior]
  · intro t s v m ht hs hz hx
    subst hz hx
    simp [restCallToolByName, ht, hs, parseBehavior]

/-- Witness for C1: a handler-level failure envelope travels verbatim with
HTTP 200 through the REST route of a registered zod-schema tool. -/
theorem c1_rest_route_witness :
    (restCallToolByName "search_courses" (Except.ok (Json.obj []))
        (ExecOutcome.ret { success := false, data := none,
                           error := some "Database error: down", metadata := none })).1 =
      { status := 200,
        body := toolResultToJson { success := false, data := none,
                                   error := some "Database error: down", metadata := none } } :=
  (c1_rest_route_amended "search_courses" (Except.ok (Json.obj []))
      (ExecOutcome.ret { success := false, data := none,
                         error := some "Database error: down", metadata := none })).2.1
    { name := "search_courses",
      description := "Search for golf courses by region, type, and price range. Returns a list of courses with basic information.",
      inputSchema := InputSchema.zodSchema "SearchCoursesSchema" }
    "SearchCoursesSchema" (Json.obj [])
    { success := false, data := none, error := some "Database error: down", metadata := none }
    (by decide) rfl rfl rfl

/-- Claim C2: the three tools registered with a plain-object inputSchema fail
on every invocation through either transport, because parse is not a function
on those objects: the REST path answers 500, the session-protocol path answers
the serialized success-false error object, and the handler is never invoked. -/
theorem c2_plain_schema_tools_always_fail (zr : Except String Json) (ex : ExecOutcome) :
    (getTool "find_course_by_name").map (fun t => t.inputSchema) = some InputSchema.plainObject ∧
    (getTool "get_golf_resorts").map (fun t => t.inputSchema) = some InputSchema.plainObject ∧
    (getTool "get_operator_suppliers").map (fun t => t.inputSchema) = some InputSchema.plainObject ∧
    restCallToolByName "find_course_by_name" zr ex = ({ status := 500, body := jsErrorBody tnfMsg }, false) ∧
    restCallToolByName "get_golf_resorts" zr ex = ({ status := 500, body := jsErrorBody tnfMsg }, false) ∧
    restCallToolByName "get_operator_suppliers" zr ex = ({ status := 500, body := jsErrorBody tnfMsg }, false) ∧
    mcpCallTool "find_course_by_name" zr ex = ({ body := jsErrorBody tnfMsg, isError := true }, false) ∧
    mcpCallTool "get_golf_resorts" zr ex = ({ body := jsErrorBody tnfMsg, isError := true }, false) ∧
    mcpCallTool "get_operator_suppliers" zr ex = ({ body := jsErrorBody tnfMsg, isError := true }, false) := by
  have key : ∀ (name : String) (t : RegEntry), getTool name = some t →
      t.inputSchema = InputSchema.plainObject →
      restCallToolByName name zr ex = ({ status := 500, body := jsErrorBody tnfMsg }, false) ∧
      mcpCallTool name zr ex = ({ body := jsErrorBody tnfMsg, isError := true }, false) := by
    intro name t h hp
    constructor
    · simp [restCallToolByName, h, hp, parseBehavior]
    · simp [mcpCallTool, h, hp, parseBehavior]
  have e1 := key "find_course_by_name"
    { name := "find_course_by_name",
      description := "Find courses by name using fuzzy search. Useful when user mentions specific course names.",
      inputSchema := InputSchema.plainObject } (by decide) rfl
  have e2 := key "get_golf_resorts"
    { name := "get_golf_resorts",
      description := "Find golf resorts (accommodations with on-site golf courses) perfect for stay-and-play packages.",
      inputSchema := InputSchema.plainObject } (by decide) rfl
  have e3 := key "get_operator_suppliers"
    { name := "get_operator_suppliers",
      description := "List all of an operator\x27s supplier relationships and negotiated rates.",
      inputSchema := InputSchema.plainObject } (by decide) rfl
  exact ⟨by decide, by decide, by decide, e1.1, e2.1, e3.1, e1.2, e2.2, e3.2⟩

/-- Counterexample for C3: a cache hit of searchCourses returns a successful
envelope whose metadata is exactly the cached flag, with no duration_ms key,
so not every path carries metadata.duration_ms. -/
theorem c3_duration_counterexample :
    (searchCoursesHandler
        (CacheState.live [("courses:search:_;_;_;_;_", Json.arr [])])
        (Except.ok [])
        { region := none, course_type := none, min_price_cents := none,
          max_price_cents := none, limit := none } 5).1.success = true ∧
    metaLookup (searchCoursesHandler
        (CacheState.live [("courses:search:_;_;_;_;_", Json.arr [])])
        (Except.ok [])
        { region := none, course_type := none, min_price_cents := none,
          max_price_cents := none, limit := none } 5).1 "duration_ms" = none ∧
    metaLookup (searchCoursesHandler
        (CacheState.live [("courses:search:_;_;_;_;_", Json.arr [])])
        (Except.ok [])
        { region := none, course_type := none, min_price_cents := none,
          max_price_cents := none, limit := none } 5).1 "cached" = some (Json.bool true) := by
  exact ⟨rfl, rfl, rfl⟩

/-- Claim C3 as amended: metadata.duration_ms is populated only on the
cache-miss success path; a cache hit returns metadata carrying only the cached
flag, a store failure returns no metadata at all, and the hasNegotiatedRate
handler never attaches metadata on any path. -/
theorem c3_duration_metadata_amended (cache : CacheState)
    (store : Except String (List Course)) (p : SearchCoursesParams) (d : Int) :
    (∀ v, getCached cache (searchCacheKey p) = some v →
      metaLookup (searchCoursesHandler cache store p d).1 "duration_ms" = none ∧
      metaLookup (searchCoursesHandler cache store p d).1 "cached" = some (Json.bool true)) ∧
    (∀ table, getCached cache (searchCacheKey p) = none → store = Except.ok table →
      metaLookup (searchCoursesHandler cache store p d).1 "duration_ms" = some (Json.num d)) ∧
    (∀ m, getCached cache (searchCacheKey p) = none → store = Except.error m →
      (searchCoursesHandler cache store p d).1.metadata = none) ∧
    (∀ s : Except String RateRow, metaLookup (hasNegotiatedRateHandler s) "duration_ms" = none ∧
      (hasNegotiatedRateHandler s).metadata = none) := by
  refine ⟨?_, ?_, ?_, ?_⟩
  · intro v h
    constructor <;> simp [searchCoursesHandler, h, metaLookup]
  · intro table h hst
    subst hst
    simp [searchCoursesHandler, h, metaLookup]
  · intro m h hst
    subst hst
    simp [searchCoursesHandler, h]
  · intro s
    cases s <;> exact ⟨rfl, rfl⟩

/-- Witness for C3: on a concrete cache-miss success path the metadata carries
the computed duration. -/
theorem c3_duration_metadata_witness :
    metaLookup (searchCoursesHandler CacheState.absent (Except.ok [])
        { region := none, course_type := none, min_price_cents := none,
          max_price_cents := none, limit := none } 7).1 "duration_ms" = some (Json.num 7) :=
  (c3_duration_metadata_amended CacheState.absent (Except.ok [])
      { region := none, course_type := none, min_price_cents := none,
        max_price_cents := none, limit := none } 7).2.1 [] rfl rfl

/-- Counterexample for C4: the hasNegotiatedRate handler answers a store-query
error — here a connection failure — with a successful envelope claiming there
is no negotiated rate, so a store failure is reported as a successful result. -/
theorem c4_store_error_counterexample :
    (hasNegotiatedRateHandler (Except.error "connection refused")).success = true ∧
    (hasNegotiatedRateHandler (Except.error "connection refused")).data =
      some (Json.obj [("has_rate", Json.bool false)]) ∧
    (hasNegotiatedRateHandler (Except.error "connection refused")).error = none := by
  exact ⟨rfl, rfl, rfl⟩

/-- Claim C4 as amended: the list-query handlers, represented by searchCourses,
surface a store error as success false with a message describing the store
failure; the hasNegotiatedRate handler is the exception, mapping every error of
its single-row query — store failures included — to success true with
has_rate false. -/
theorem c4_store_errors_amended (m : String) (cache : CacheState)
    (p : SearchCoursesParams) (d : Int) :
    (getCached cache (searchCacheKey p) = none →
      (searchCoursesHandler cache (Except.error m) p d).1.success = false ∧
      (searchCoursesHandler cache (Except.error m) p d).1.error =
        some ("Database error: " ++ m)) ∧
    ((hasNegotiatedRateHandler (Except.error m)).success = true ∧
     (hasNegotiatedRateHandler (Except.error m)).data =
       some (Json.obj [("has_rate", Json.bool false)])) := by
  constructor
  · intro h
    constructor <;> simp [searchCoursesHandler, h]
  · exact ⟨rfl, rfl⟩

/-- Witness for C4: a concrete store failure surfaces from searchCourses as a
success-false envelope with the descriptive message. -/
theorem c4_store_errors_witness :
    (searchCoursesHandler CacheState.absent (Except.error "boom")
        { region := none, course_type := none, min_price_cents := none,
          max_price_cents := none, limit := none } 3).1.success = false ∧
    (searchCoursesHandler CacheState.absent (Except.error "boom")
        { region := none, course_type := none, min_price_cents := none,
          max_price_cents := none, limit := none } 3).1.error =
      some ("Database error: " ++ "boom") :=
  (c4_store_errors_amended "boom" CacheState.absent
      { region := none, course_type := none, min_price_cents := none,
        max_price_cents := none, limit := none } 3).1 rfl

/-- Counterexample for C8: with the store failing, a warm live cache answers
success while the disabled cache answers failure, so the success or failure
outcome is not the same whether or not a live cache backend is present. -/
theorem c8_warm_cache_counterexample :
    (searchCoursesHandler
        (CacheState.live [("courses:search:_;_;_;_;_", Json.arr [])])
        (Except.error "connection refused")
        { region := none, course_type := none, min_price_cents := none,
          max_price_cents := none, limit := none } 0).1.success = true ∧
    (searchCoursesHandler CacheState.absent
        (Except.error "connection refused")
        { region := none, course_type := none, min_price_cents := none,
          max_price_cents := none, limit := none } 0).1.success = false := by
  exact ⟨rfl, rfl⟩

/-- Claim C8 as amended: a disabled or unreachable cache backend is a permanent
miss for get and a no-op for set, with connection failures swallowed rather
than surfaced; a handler run against an unreachable backend returns exactly the
envelope of the disabled-cache run, and so does a run against a live cache
holding no entry for the request key; only a warm hit diverges, returning the
cached payload with the cached flag. -/
theorem c8_cache_degradation_amended :
    (∀ k, getCached CacheState.absent k = none) ∧
    (∀ k, getCached CacheState.unreachable k = none) ∧
    (∀ k v, setCached CacheState.absent k v = CacheState.absent) ∧
    (∀ k v, setCached CacheState.unreachable k v = CacheState.unreachable) ∧
    (∀ store p d, (searchCoursesHandler CacheState.unreachable store p d).1 =
      (searchCoursesHandler CacheState.absent store p d).1) ∧
    (∀ es store p d, cacheLookup es (searchCacheKey p) = none →
      (searchCoursesHandler (CacheState.live es) store p d).1 =
        (searchCoursesHandler CacheState.absent store p d).1) := by
  refine ⟨fun k => rfl, fun k => rfl, fun k v => rfl, fun k v => rfl, ?_, ?_⟩
  · intro store p d
    cases store <;> rfl
  · intro es store p d h
    simp only [searchCoursesHandler, getCached, h]
    cases store <;> rfl

/-- Witness for C8: on a concrete empty live cache the handler envelope equals
the disabled-cache envelope. -/
theorem c8_cache_degradation_witness :
    (searchCoursesHandler (CacheState.live []) (Except.ok [])
        { region := none, course_type := none, min_price_cents := none,
          max_price_cents := none, limit := none } 2).1 =
      (searchCoursesHandler CacheState.absent (Except.ok [])
        { region := none, course_type := none, min_price_cents := none,
          max_price_cents := none, limit := none } 2).1 :=
  c8_cache_degradation_amended.2.2.2.2.2 [] (Except.ok [])
    { region := none, course_type := none, min_price_cents := none,
      max_price_cents := none, limit := none } 2 rfl

/-- Claim C5: for every region and budget tier the recommended-courses lookup
selects exactly the courses whose region matches case-insensitively as a
substring and whose price lies in the tier bracket with inclusive bounds — a
course priced exactly 15000 satisfies both the budget and the standard
bracket — ordered by descending rating and truncated to the requested limit,
10 by default. -/
theorem c5_recommended_matches_spec (store : List Course) (region : String)
    (tier : BudgetTier) (lim : Option Int)
    (hlim : lim = none ∨ ∃ n : Int, lim = some n ∧ n ≠ 0) :
    getRecommendedCoursesRows store region tier lim =
      specRecommendedRows store region tier lim ∧
    tierIncludes BudgetTier.budget 15000 = true ∧
    tierIncludes BudgetTier.standard 15000 = true := by
  have hl : effLimit10 lim = specLimit lim := by
    rcases hlim with rfl | ⟨n, rfl, hn⟩
    · rfl
    · have hb : (n == 0) = false := by simpa using hn
      simp [effLimit10, specLimit, hb]
  refine ⟨?_, by decide, by decide⟩
  cases tier with
  | budget =>
      simp only [getRecommendedCoursesRows, specRecommendedRows, priceRanges, hl,
        filterFilterEq, tierIncludes]
  | standard =>
      simp only [getRecommendedCoursesRows, specRecommendedRows, priceRanges, hl,
        filterFilterEq, tierIncludes, Bool.and_assoc]
  | luxury =>
      simp only [getRecommendedCoursesRows, specRecommendedRows, priceRanges, hl,
        filterFilterEq, tierIncludes]

/-- Witness for C5: a concrete store at the 15000 boundary, queried for both
the budget tier and the standard tier. -/
theorem c5_recommended_matches_spec_witness :
    (getRecommendedCoursesRows
        [{ id := "a", name := "Boundary", region := "Southwest Ireland",
           course_type := "links", rating := 9, green_fee_standard_cents := 15000 }]
        "ireland" BudgetTier.budget none =
      specRecommendedRows
        [{ id := "a", name := "Boundary", region := "Southwest Ireland",
           course_type := "links", rating := 9, green_fee_standard_cents := 15000 }]
        "ireland" BudgetTier.budget none ∧
      tierIncludes BudgetTier.budget 15000 = true ∧
      tierIncludes BudgetTier.standard 15000 = true) ∧
    (getRecommendedCoursesRows
        [{ id := "a", name := "Boundary", region := "Southwest Ireland",
           course_type := "links", rating := 9, green_fee_standard_cents := 15000 }]
        "ireland" BudgetTier.standard (some 3) =
      specRecommendedRows
        [{ id := "a", name := "Boundary", region := "Southwest Ireland",
           course_type := "links", rating := 9, green_fee_standard_cents := 15000 }]
        "ireland" BudgetTier.standard (some 3) ∧
      tierIncludes BudgetTier.budget 15000 = true ∧
      tierIncludes BudgetTier.standard 15000 = true) :=
  ⟨c5_recommended_matches_spec
      [{ id := "a", name := "Boundary", region := "Southwest Ireland",
         course_type := "links", rating := 9, green_fee_standard_cents := 15000 }]
      "ireland" BudgetTier.budget none (Or.inl rfl),
   c5_recommended_matches_spec
      [{ id := "a", name := "Boundary", region := "Southwest Ireland",
         course_type := "links", rating := 9, green_fee_standard_cents := 15000 }]
      "ireland" BudgetTier.standard (some 3) (Or.inr ⟨3, rfl, by decide⟩)⟩

/-- Claim C10: an explicit limit of 0 is replaced by the default limit (20 for
search, 10 for recommendations) instead of returning zero rows, and an
explicit min_price_cents or max_price_cents of 0 is ignored instead of applied
as a bound, because the handlers test these numeric parameters for truthiness. -/
theorem c10_zero_params_treated_as_absent (store : List Course)
    (r ct : Option String) (mn mx l : Option Int) (region : String) (tier : BudgetTier) :
    searchCoursesRows store
        { region := r, course_type := ct, min_price_cents := mn,
          max_price_cents := mx, limit := some 0 } =
      searchCoursesRows store
        { region := r, course_type := ct, min_price_cents := mn,
          max_price_cents := mx, limit := none } ∧
    searchCoursesRows store
        { region := r, course_type := ct, min_price_cents := some 0,
          max_price_cents := mx, limit := l } =
      searchCoursesRows store
        { region := r, course_type := ct, min_price_cents := none,
          max_price_cents := mx, limit := l } ∧
    searchCoursesRows store
        { region := r, course_type := ct, min_price_cents := mn,
          max_price_cents := some 0, limit := l } =
      searchCoursesRows store
        { region := r, course_type := ct, min_price_cents := mn,
          max_price_cents := none, limit := l } ∧
    getRecommendedCoursesRows store region tier (some 0) =
      getRecommendedCoursesRows store region tier none := by
  refine ⟨?_, ?_, ?_, ?_⟩
  · simp only [searchCoursesRows, searchFilterPred, effLimit20]
    rfl
  · simp only [searchCoursesRows, searchFilterPred, truthyN]
    rfl
  · simp only [searchCoursesRows, searchFilterPred, truthyN]
    rfl
  · simp only [getRecommendedCoursesRows, effLimit10]
    rfl
